import Mathlib

/-!
Verification of the RLC circuit simulator core (`circuit_simulator.py`,
`circuit_analysis.py`) against its natural-language specification.

Modelling conventions:
* Exact rational numbers (`ℚ`) stand for Python floats wherever the code only
  performs field arithmetic and comparisons (the factory/validation layer and
  the time-grid construction), so that concrete runs are decidable.
* Real numbers (`ℝ`) stand for Python floats wherever the code uses `sqrt`,
  `log10`, `pi` or complex evaluation (the analysis formulas).
* A Python `raise ValueError` is modelled as `Except.error` with an error kind:
  `invalidParameter` for the "must be positive" messages and
  `invalidCircuitType` for the unrecognized-topology message.
* Lists (highest power first) stand for numpy coefficient arrays.
-/

/-- Error kinds raised by the core (both are `ValueError` in the source; they
are distinguished by their message). -/
inductive CircuitError where
  | invalidParameter
  | invalidCircuitType
  deriving DecidableEq, Repr

/-- The two circuit topologies (`SeriesRLCCircuit` / `ParallelRLCCircuit`). -/
inductive CircuitKind where
  | series
  | parallel
  deriving DecidableEq, Repr

/-- A validated circuit: topology tag plus the parameters stored by
`RLCCircuit.__init__` (`self.R`, `self.L`, `self.C`).  The derived fields
`self.omega_0` and `self.f_0` are pure functions of `L`, `C` and are modelled
by the real-valued functions `omega_0` and `f_0` below. -/
structure Circuit where
  kind : CircuitKind
  R : ℚ
  L : ℚ
  C : ℚ
  deriving DecidableEq, Repr

/-- `RLCCircuit.__init__` (circuit_simulator.py lines 14-32): raises
`ValueError` ("All circuit parameters (R, L, C) must be positive") when
`R <= 0 or L <= 0 or C <= 0`, otherwise stores the parameters. -/
def RLCCircuit_init (kind : CircuitKind) (R L C : ℚ) : Except CircuitError Circuit :=
  if R ≤ 0 ∨ L ≤ 0 ∨ C ≤ 0 then .error .invalidParameter
  else .ok ⟨kind, R, L, C⟩

/-- Python `str.lower()`: lowercases every character. -/
def lower (s : String) : String := ⟨s.data.map Char.toLower⟩

/-- `create_circuit` (circuit_simulator.py lines 196-212): dispatches on
`circuit_type.lower()`; unrecognized tags raise `ValueError` ("Circuit type
must be 'series' or 'parallel'") before any parameter validation happens. -/
def create_circuit (circuit_type : String) (R L C : ℚ) : Except CircuitError Circuit :=
  if lower circuit_type = "series" then RLCCircuit_init .series R L C
  else if lower circuit_type = "parallel" then RLCCircuit_init .parallel R L C
  else .error .invalidCircuitType

/-- `np.linspace(start, stop, num)`: `num` evenly spaced samples, endpoint
included.  For `num = 1` numpy returns `[start]`; our formula agrees because
division by zero yields zero. -/
def linspace {α : Type} [Field α] (start stop : α) (num : ℕ) : List α :=
  (List.range num).map (fun i => start + (stop - start) * (i : α) / ((num : α) - 1))

/-- Boundary model of `RLCCircuit.simulate_step_response` (circuit_simulator.py
lines 58-81).  The source performs no validation of `duration` or
`num_points`: it builds the transfer function (which cannot fail), then
unconditionally builds the time grid `np.linspace(0, duration, num_points)`
and hands it to `scipy.signal.step`.  The ODE solver's numerics are outside
this model; we model the validation-and-grid phase of the operation, which is
where any eager `InvalidParameter` check would have to live. -/
def simulate_step_response (duration : ℚ) (num_points : ℕ) :
    Except CircuitError (List ℚ) :=
  .ok (linspace 0 duration num_points)

/-- Boundary model of `RLCCircuit.simulate_sinusoidal_response`
(circuit_simulator.py lines 83-112).  Exactly as in `simulate_step_response`,
no argument is validated: the grid `np.linspace(0, duration, num_points)` and
the drive `amplitude*sin(2*pi*frequency*t)` are built unconditionally and
passed to `scipy.signal.lsim`. -/
def simulate_sinusoidal_response (frequency amplitude duration : ℚ)
    (num_points : ℕ) : Except CircuitError (List ℚ) :=
  .ok (linspace 0 duration num_points)

/-- `self.omega_0 = 1 / math.sqrt(L * C)` (circuit_simulator.py line 31). -/
noncomputable def omega_0 (L C : ℝ) : ℝ := 1 / Real.sqrt (L * C)

/-- `self.f_0 = self.omega_0 / (2 * math.pi)` (circuit_simulator.py line 32). -/
noncomputable def f_0 (L C : ℝ) : ℝ := omega_0 L C / (2 * Real.pi)

/-- `SeriesRLCCircuit.get_damping_factor` (lines 133-135):
`R / (2 * math.sqrt(L / C))`. -/
noncomputable def seriesDampingFactor (R L C : ℝ) : ℝ :=
  R / (2 * Real.sqrt (L / C))

/-- `ParallelRLCCircuit.get_damping_factor` (lines 166-168):
`1 / (2 * R * math.sqrt(C / L))`. -/
noncomputable def parallelDampingFactor (R L C : ℝ) : ℝ :=
  1 / (2 * R * Real.sqrt (C / L))

/-- Variant dispatch for the damping factor. -/
noncomputable def dampingFactor (k : CircuitKind) (R L C : ℝ) : ℝ :=
  match k with
  | .series => seriesDampingFactor R L C
  | .parallel => parallelDampingFactor R L C

/-- `RLCCircuit.get_q_factor` (lines 44-46): `1 / (2 * self.get_damping_factor())`. -/
noncomputable def q_factor (k : CircuitKind) (R L C : ℝ) : ℝ :=
  1 / (2 * dampingFactor k R L C)

/-- `RLCCircuit.get_damping_type` (lines 48-56): strict comparison with 1,
exact equality for the critically damped case. -/
noncomputable def get_damping_type (zeta : ℝ) : String :=
  if zeta < 1 then "Underdamped"
  else if zeta = 1 then "Critically Damped"
  else "Overdamped"

/-- `get_transfer_function` of both subclasses (lines 122-131 and 154-164):
`(numerator, denominator)` coefficient lists, highest power first.
Series: `([1], [L*C, R*C, 1])`; parallel: `([R*C, 0], [L*C, R*C, 1])`. -/
noncomputable def get_transfer_function (k : CircuitKind) (R L C : ℝ) :
    List ℝ × List ℝ :=
  match k with
  | .series => ([1], [L * C, R * C, 1])
  | .parallel => ([R * C, 0], [L * C, R * C, 1])

/-- `np.polyval`-style evaluation of a real coefficient list (highest power
first) at a complex point, as `scipy.signal.TransferFunction.freqresp` does
for numerator and denominator. -/
noncomputable def polyvalC (coeffs : List ℝ) (s : Complex) : Complex :=
  coeffs.foldl (fun acc c => acc * s + (c : Complex)) 0

/-- `tf.freqresp(omega)`: evaluates `H(j*omega) = num(j*omega)/den(j*omega)`. -/
noncomputable def freqrespH (num den : List ℝ) (omega : ℝ) : Complex :=
  polyvalC num (Complex.I * (omega : Complex)) / polyvalC den (Complex.I * (omega : Complex))

/-- `magnitude_linear` entry of `CircuitAnalyzer.analyze_frequency_response`
(circuit_analysis.py lines 76-107) at one frequency `f` in Hz:
`np.abs(h)` where `h = tf.freqresp(2*pi*f)`. -/
noncomputable def magnitude_linear (num den : List ℝ) (f : ℝ) : ℝ :=
  Complex.abs (freqrespH num den (2 * Real.pi * f))

/-- `magnitude_db` entry: `20 * np.log10(np.abs(h))`. -/
noncomputable def magnitude_db (num den : List ℝ) (f : ℝ) : ℝ :=
  20 * Real.logb 10 (magnitude_linear num den f)

/-- `phase_rad` entry: `np.angle(h)`. -/
noncomputable def phase_rad (num den : List ℝ) (f : ℝ) : ℝ :=
  Complex.arg (freqrespH num den (2 * Real.pi * f))

/-- `phase_deg` entry: `np.angle(h) * 180 / np.pi`. -/
noncomputable def phase_deg (num den : List ℝ) (f : ℝ) : ℝ :=
  phase_rad num den f * 180 / Real.pi

/-- `np.max` of a list with an explicit default for the empty case (the
source always applies it to a 10000-sample sweep, so the default is inert). -/
def listMax {α : Type} [LinearOrder α] : List α → α → α
  | [], d => d
  | x :: xs, _ => xs.foldl max x

/-- First index attaining the maximum, as `np.argmax` returns (the fold only
replaces the champion on a strict increase). -/
def argmaxAux {α : Type} [LinearOrder α] : List α → ℕ → ℕ → α → ℕ
  | [], _, best, _ => best
  | x :: xs, i, best, bestVal =>
      if bestVal < x then argmaxAux xs (i + 1) i x
      else argmaxAux xs (i + 1) best bestVal

/-- `np.argmax` over a list (0 on the empty list). -/
def argmaxList {α : Type} [LinearOrder α] : List α → ℕ
  | [] => 0
  | x :: xs => argmaxAux xs 1 0 x

/-- `np.where(np.diff(np.signbit(mags - target)))[0]` (circuit_analysis.py
line 136): the indices `i` at which the sign bit of `mags[i] - target`
differs from that of `mags[i+1] - target`. -/
def crossingIndices {α : Type} [LinearOrderedField α] (mags : List α) (target : α) :
    List ℕ :=
  (List.range (mags.length - 1)).filter
    (fun i => decide (mags.getD i 0 - target < 0) ≠ decide (mags.getD (i + 1) 0 - target < 0))

/-- The `bandwidth_data` dictionary built by `CircuitAnalyzer.find_bandwidth`
(lines 138-152): the three peak/target entries are always present; the four
band-edge entries exist only when at least two crossings were found. -/
structure BandwidthData (α : Type) where
  peak_frequency_hz : α
  peak_magnitude_db : α
  target_magnitude_db : α
  lower_frequency_hz : Option α
  upper_frequency_hz : Option α
  bandwidth_hz : Option α
  q_factor_measured : Option α

/-- Lines 130-154 of `find_bandwidth`, parametric in the sampled frequencies
and magnitudes: peak over the sweep, `target = peak + tolerance_db`, sign
crossings of `magnitude - target`, and the conditional update with the first
and last crossing frequencies. -/
def bandwidthFromSweep {α : Type} [LinearOrderedField α]
    (freqs mags : List α) (tolerance_db : α) : BandwidthData α :=
  if 2 ≤ (crossingIndices mags (listMax mags 0 + tolerance_db)).length then
    ⟨freqs.getD (argmaxList mags) 0,
     listMax mags 0,
     listMax mags 0 + tolerance_db,
     some (freqs.getD ((crossingIndices mags (listMax mags 0 + tolerance_db)).headD 0) 0),
     some (freqs.getD ((crossingIndices mags (listMax mags 0 + tolerance_db)).getLastD 0) 0),
     some (freqs.getD ((crossingIndices mags (listMax mags 0 + tolerance_db)).getLastD 0) 0
       - freqs.getD ((crossingIndices mags (listMax mags 0 + tolerance_db)).headD 0) 0),
     some (freqs.getD (argmaxList mags) 0 /
       (freqs.getD ((crossingIndices mags (listMax mags 0 + tolerance_db)).getLastD 0) 0
         - freqs.getD ((crossingIndices mags (listMax mags 0 + tolerance_db)).headD 0) 0))⟩
  else
    ⟨freqs.getD (argmaxList mags) 0,
     listMax mags 0,
     listMax mags 0 + tolerance_db,
     none, none, none, none⟩

/-- `np.logspace(a, b, num)`: `10 ** np.linspace(a, b, num)`. -/
noncomputable def logspace (a b : ℝ) (num : ℕ) : List ℝ :=
  (linspace a b num).map (fun x => (10 : ℝ) ^ x)

/-- The frequency sweep of `find_bandwidth` (lines 121-125):
`np.logspace(np.log10(f_0/100), np.log10(f_0*100), 10000)`. -/
noncomputable def sweepFrequencies (L C : ℝ) : List ℝ :=
  logspace (Real.logb 10 (f_0 L C / 100)) (Real.logb 10 (f_0 L C * 100)) 10000

/-- The `magnitude_db` array of the sweep (line 128 via
`analyze_frequency_response`). -/
noncomputable def sweepMagnitudes (k : CircuitKind) (R L C : ℝ) : List ℝ :=
  (sweepFrequencies L C).map
    (fun f => magnitude_db (get_transfer_function k R L C).1 (get_transfer_function k R L C).2 f)

/-- `CircuitAnalyzer.find_bandwidth` (circuit_analysis.py lines 110-154). -/
noncomputable def find_bandwidth (k : CircuitKind) (R L C : ℝ) (tolerance_db : ℝ) :
    BandwidthData ℝ :=
  bandwidthFromSweep (sweepFrequencies L C) (sweepMagnitudes k R L C) tolerance_db

/-- The dictionary returned by `CircuitAnalyzer.calculate_time_constants`
(circuit_analysis.py lines 29-74).  The five always-present keys come first;
keys inserted only in some damping regime (or only for `zeta > 0`) are
`Option`s. -/
structure TimeConstants where
  natural_frequency_rad : ℝ
  natural_frequency_hz : ℝ
  damping_factor : ℝ
  q_factor : ℝ
  damping_type : String
  damped_frequency_rad : Option ℝ
  damped_frequency_hz : Option ℝ
  envelope_time_constant : Option ℝ
  period_damped : Option ℝ
  pole_1 : Option ℝ
  pole_2 : Option ℝ
  time_constant_1 : Option ℝ
  time_constant_2 : Option ℝ
  repeated_pole : Option ℝ
  time_constant : Option ℝ
  settling_time_2_percent : Option ℝ
  settling_time_5_percent : Option ℝ

/-- `CircuitAnalyzer.calculate_time_constants` (circuit_analysis.py lines
29-74), with `zeta = circuit.get_damping_factor()`, `omega_0 = circuit.omega_0`:
underdamped keys for `zeta < 1`, pole/time-constant keys for `zeta > 1`,
repeated-pole keys otherwise, and settling times whenever `zeta > 0`. -/
noncomputable def calculate_time_constants (k : CircuitKind) (R L C : ℝ) :
    TimeConstants :=
  ⟨omega_0 L C,
   f_0 L C,
   dampingFactor k R L C,
   q_factor k R L C,
   get_damping_type (dampingFactor k R L C),
   if dampingFactor k R L C < 1
     then some (omega_0 L C * Real.sqrt (1 - dampingFactor k R L C ^ 2)) else none,
   if dampingFactor k R L C < 1
     then some (omega_0 L C * Real.sqrt (1 - dampingFactor k R L C ^ 2) / (2 * Real.pi))
     else none,
   if dampingFactor k R L C < 1
     then some (1 / (dampingFactor k R L C * omega_0 L C)) else none,
   if dampingFactor k R L C < 1
     then some (2 * Real.pi / (omega_0 L C * Real.sqrt (1 - dampingFactor k R L C ^ 2)))
     else none,
   if dampingFactor k R L C < 1 then none
     else if 1 < dampingFactor k R L C
       then some (-(omega_0 L C) * (dampingFactor k R L C + Real.sqrt (dampingFactor k R L C ^ 2 - 1)))
       else none,
   if dampingFactor k R L C < 1 then none
     else if 1 < dampingFactor k R L C
       then some (-(omega_0 L C) * (dampingFactor k R L C - Real.sqrt (dampingFactor k R L C ^ 2 - 1)))
       else none,
   if dampingFactor k R L C < 1 then none
     else if 1 < dampingFactor k R L C
       then some (-1 / (-(omega_0 L C) * (dampingFactor k R L C + Real.sqrt (dampingFactor k R L C ^ 2 - 1))))
       else none,
   if dampingFactor k R L C < 1 then none
     else if 1 < dampingFactor k R L C
       then some (-1 / (-(omega_0 L C) * (dampingFactor k R L C - Real.sqrt (dampingFactor k R L C ^ 2 - 1))))
       else none,
   if dampingFactor k R L C < 1 then none
     else if 1 < dampingFactor k R L C then none else some (-(omega_0 L C)),
   if dampingFactor k R L C < 1 then none
     else if 1 < dampingFactor k R L C then none else some (1 / omega_0 L C),
   if 0 < dampingFactor k R L C
     then some (4 / (dampingFactor k R L C * omega_0 L C)) else none,
   if 0 < dampingFactor k R L C
     then some (3 / (dampingFactor k R L C * omega_0 L C)) else none⟩

/-- The lines appended by `CircuitAnalyzer.get_educational_insights`
(circuit_analysis.py lines 156-219), abstracted from their f-string rendering
to one constructor per distinct appended line; numeric interpolations are
kept as constructor arguments. -/
inductive Insight where
  | circuitTypeLine (k : CircuitKind)
  | naturalFrequencyLine (hz rad : ℝ)
  | dampingFactorLine (zeta : ℝ)
  | qualityFactorLine (q : ℝ)
  | dampingTypeLine (s : String)
  | underdampedOscillates
  | dampedFrequencyLine (hz : ℝ)
  | oscillationPeriodLine (p : ℝ)
  | envelopeTimeConstantLine (v : ℝ)
  | highQSharpResonanceLowLoss
  | lowQBroadResonanceHighLoss
  | overdampedNoOscillation
  | fastTimeConstantLine (v : ℝ)
  | slowTimeConstantLine (v : ℝ)
  | sumOfTwoExponentials
  | criticallyDampedFastest
  | timeConstantLine (v : ℝ)
  | optimalBalance
  | settlingTime2Line (v : ℝ)
  | settlingTime5Line (v : ℝ)
  | seriesSameCurrent
  | seriesVoltageDivides
  | seriesMinImpedance
  | parallelSameVoltage
  | parallelCurrentDivides
  | parallelMaxImpedance

/-- `CircuitAnalyzer.get_educational_insights` (circuit_analysis.py lines
156-219): five header lines, the damping-regime block (with the Q-factor
commentary nested inside the underdamped branch only), the settling-time
lines (present iff the corresponding dict keys exist, i.e. iff `zeta > 0`),
and the topology note block. -/
noncomputable def get_educational_insights (k : CircuitKind) (R L C : ℝ) :
    List Insight :=
  [Insight.circuitTypeLine k,
   Insight.naturalFrequencyLine (calculate_time_constants k R L C).natural_frequency_hz
     (calculate_time_constants k R L C).natural_frequency_rad,
   Insight.dampingFactorLine (calculate_time_constants k R L C).damping_factor,
   Insight.qualityFactorLine (calculate_time_constants k R L C).q_factor,
   Insight.dampingTypeLine (calculate_time_constants k R L C).damping_type]
  ++ (if (calculate_time_constants k R L C).damping_factor < 1 then
        [Insight.underdampedOscillates,
         Insight.dampedFrequencyLine ((calculate_time_constants k R L C).damped_frequency_hz.getD 0),
         Insight.oscillationPeriodLine ((calculate_time_constants k R L C).period_damped.getD 0),
         Insight.envelopeTimeConstantLine ((calculate_time_constants k R L C).envelope_time_constant.getD 0)]
        ++ (if 10 < (calculate_time_constants k R L C).q_factor then
              [Insight.highQSharpResonanceLowLoss]
            else if (calculate_time_constants k R L C).q_factor < 0.5 then
              [Insight.lowQBroadResonanceHighLoss]
            else [])
      else if 1 < (calculate_time_constants k R L C).damping_factor then
        [Insight.overdampedNoOscillation,
         Insight.fastTimeConstantLine ((calculate_time_constants k R L C).time_constant_1.getD 0),
         Insight.slowTimeConstantLine ((calculate_time_constants k R L C).time_constant_2.getD 0),
         Insight.sumOfTwoExponentials]
      else
        [Insight.criticallyDampedFastest,
         Insight.timeConstantLine ((calculate_time_constants k R L C).time_constant.getD 0),
         Insight.optimalBalance])
  ++ (match (calculate_time_constants k R L C).settling_time_2_percent with
      | some a =>
          [Insight.settlingTime2Line a,
           Insight.settlingTime5Line ((calculate_time_constants k R L C).settling_time_5_percent.getD 0)]
      | none => [])
  ++ (match k with
      | .series =>
          [Insight.seriesSameCurrent, Insight.seriesVoltageDivides, Insight.seriesMinImpedance]
      | .parallel =>
          [Insight.parallelSameVoltage, Insight.parallelCurrentDivides, Insight.parallelMaxImpedance])

/-- Claim C3: the factory returns the Series variant for a tag equal to
"series" case-insensitively and the Parallel variant for "parallel"
case-insensitively, fails with InvalidCircuitType for any other tag, and
fails with InvalidParameter when any of R, L, C is nonpositive for a
recognized tag. -/
theorem create_circuit_contract (tag : String) (R L C : ℚ) :
    (lower tag = "series" →
      (0 < R ∧ 0 < L ∧ 0 < C →
        create_circuit tag R L C = .ok ⟨.series, R, L, C⟩)
      ∧ ((R ≤ 0 ∨ L ≤ 0 ∨ C ≤ 0) →
        create_circuit tag R L C = .error .invalidParameter))
    ∧ (lower tag = "parallel" →
      (0 < R ∧ 0 < L ∧ 0 < C →
        create_circuit tag R L C = .ok ⟨.parallel, R, L, C⟩)
      ∧ ((R ≤ 0 ∨ L ≤ 0 ∨ C ≤ 0) →
        create_circuit tag R L C = .error .invalidParameter))
    ∧ (lower tag ≠ "series" → lower tag ≠ "parallel" →
      create_circuit tag R L C = .error .invalidCircuitType) := by
  refine ⟨fun hs => ⟨fun hpos => ?_, fun hneg => ?_⟩,
          fun hp => ⟨fun hpos => ?_, fun hneg => ?_⟩,
          fun hns hnp => ?_⟩
  · rw [create_circuit, if_pos hs, RLCCircuit_init,
      if_neg (by push_neg; exact hpos)]
  · rw [create_circuit, if_pos hs, RLCCircuit_init, if_pos hneg]
  · rw [create_circuit, if_neg (by rw [hp]; decide), if_pos hp,
      RLCCircuit_init, if_neg (by push_neg; exact hpos)]
  · rw [create_circuit, if_neg (by rw [hp]; decide), if_pos hp,
      RLCCircuit_init, if_pos hneg]
  · rw [create_circuit, if_neg hns, if_neg hnp]

/-- Witness for C3: concrete runs of the factory through each contract case. -/
theorem create_circuit_contract_witness :
    create_circuit "SeRiEs" 1 2 3 = .ok ⟨.series, 1, 2, 3⟩
    ∧ create_circuit "series" (-1) 2 3 = .error .invalidParameter
    ∧ create_circuit "PARALLEL" 1 2 3 = .ok ⟨.parallel, 1, 2, 3⟩
    ∧ create_circuit "bogus" 1 2 3 = .error .invalidCircuitType :=
  ⟨((create_circuit_contract "SeRiEs" 1 2 3).1 (by decide)).1 (by norm_num),
   ((create_circuit_contract "series" (-1) 2 3).1 (by decide)).2 (by norm_num),
   ((create_circuit_contract "PARALLEL" 1 2 3).2.1 (by decide)).1 (by norm_num),
   (create_circuit_contract "bogus" 1 2 3).2.2 (by decide) (by decide)⟩

/-- Claim C10: in the factory, the topology-tag check precedes parameter
validation: any unrecognized tag yields InvalidCircuitType regardless of
R, L, C, and InvalidParameter can only be produced for a recognized tag. -/
theorem create_circuit_tag_check_precedes (tag : String) (R L C : ℚ) :
    (lower tag ≠ "series" → lower tag ≠ "parallel" →
      create_circuit tag R L C = .error .invalidCircuitType)
    ∧ (create_circuit tag R L C = .error .invalidParameter →
      lower tag = "series" ∨ lower tag = "parallel") := by
  constructor
  · intro hns hnp
    rw [create_circuit, if_neg hns, if_neg hnp]
  · intro h
    by_cases hs : lower tag = "series"
    · exact Or.inl hs
    · by_cases hp : lower tag = "parallel"
      · exact Or.inr hp
      · rw [create_circuit, if_neg hs, if_neg hp] at h
        exact absurd h (by simp)

/-- Witness for C10: an unrecognized tag together with nonpositive R, L, C
still reports InvalidCircuitType, showing the tag check runs first. -/
theorem create_circuit_tag_check_precedes_witness :
    create_circuit "Bogus" (-1) 0 (-2) = .error .invalidCircuitType :=
  (create_circuit_tag_check_precedes "Bogus" (-1) 0 (-2)).1 (by decide) (by decide)

/-- Counterexample to claim C2: with `duration = -1 <= 0` the step-response
entry returns a (descending) time grid instead of failing with
InvalidParameter, and with `num_points = 0` it returns an empty grid; the
sinusoidal entry behaves identically.  No eager validation exists. -/
theorem simulate_validation_counterexample :
    simulate_step_response (-1) 3 = .ok [0, -1/2, -1]
    ∧ simulate_step_response (-1) 3 ≠ .error .invalidParameter
    ∧ simulate_step_response 5 0 = .ok []
    ∧ simulate_step_response 5 0 ≠ .error .invalidParameter
    ∧ simulate_sinusoidal_response 2 1 (-1) 3 ≠ .error .invalidParameter
    ∧ simulate_sinusoidal_response 2 1 5 0 ≠ .error .invalidParameter := by
  refine ⟨?_, ?_, ?_, ?_, ?_, ?_⟩
  · simp [simulate_step_response, linspace, List.range_succ]
    norm_num
  · simp [simulate_step_response]
  · simp [simulate_step_response, linspace]
  · simp [simulate_step_response]
  · simp [simulate_sinusoidal_response]
  · simp [simulate_sinusoidal_response]

/-- Claim C2 as amended: neither simulation entry operation validates
duration or sample count; both unconditionally build the
`np.linspace(0, duration, num_points)` time grid and never report any error
at their boundary, for every input. -/
theorem simulate_no_boundary_validation (duration : ℚ) (num_points : ℕ)
    (frequency amplitude : ℚ) :
    simulate_step_response duration num_points
      = .ok (linspace 0 duration num_points)
    ∧ simulate_sinusoidal_response frequency amplitude duration num_points
      = .ok (linspace 0 duration num_points)
    ∧ (∀ e : CircuitError,
        simulate_step_response duration num_points ≠ .error e)
    ∧ (∀ e : CircuitError,
        simulate_sinusoidal_response frequency amplitude duration num_points
          ≠ .error e) := by
  exact ⟨rfl, rfl, fun e h => by simp [simulate_step_response] at h,
         fun e h => by simp [simulate_sinusoidal_response] at h⟩

/-- Claim C6: for every R, L, C the denominator coefficients are
`[L*C, R*C, 1]` (highest power first) for both variants, the series
numerator is `[1]`, and the parallel numerator is `[R*C, 0]`. -/
theorem transfer_function_coefficients (R L C : ℝ) :
    get_transfer_function .series R L C = ([1], [L * C, R * C, 1])
    ∧ get_transfer_function .parallel R L C = ([R * C, 0], [L * C, R * C, 1]) :=
  ⟨rfl, rfl⟩

/-- Claim C7: the bandwidth search uses `target = peak + tolerance` over the
logarithmic sweep; when at least two sign changes of `magnitude - target`
occur between consecutive samples the band-edge fields hold the first and
last crossing frequencies, `bandwidth = upper - lower` and
`q = peak_frequency / bandwidth`; with fewer than two crossings all four
optional fields are absent, and the operation never fails. -/
theorem find_bandwidth_structure (k : CircuitKind) (R L C tol : ℝ) :
    (find_bandwidth k R L C tol).peak_magnitude_db
      = listMax (sweepMagnitudes k R L C) 0
    ∧ (find_bandwidth k R L C tol).target_magnitude_db
      = listMax (sweepMagnitudes k R L C) 0 + tol
    ∧ (find_bandwidth k R L C tol).peak_frequency_hz
      = (sweepFrequencies L C).getD (argmaxList (sweepMagnitudes k R L C)) 0
    ∧ (find_bandwidth k R L C tol).lower_frequency_hz
      = (if 2 ≤ (crossingIndices (sweepMagnitudes k R L C)
            (listMax (sweepMagnitudes k R L C) 0 + tol)).length
         then some ((sweepFrequencies L C).getD
            ((crossingIndices (sweepMagnitudes k R L C)
              (listMax (sweepMagnitudes k R L C) 0 + tol)).headD 0) 0)
         else none)
    ∧ (find_bandwidth k R L C tol).upper_frequency_hz
      = (if 2 ≤ (crossingIndices (sweepMagnitudes k R L C)
            (listMax (sweepMagnitudes k R L C) 0 + tol)).length
         then some ((sweepFrequencies L C).getD
            ((crossingIndices (sweepMagnitudes k R L C)
              (listMax (sweepMagnitudes k R L C) 0 + tol)).getLastD 0) 0)
         else none)
    ∧ (find_bandwidth k R L C tol).bandwidth_hz
      = (if 2 ≤ (crossingIndices (sweepMagnitudes k R L C)
            (listMax (sweepMagnitudes k R L C) 0 + tol)).length
         then some ((sweepFrequencies L C).getD
            ((crossingIndices (sweepMagnitudes k R L C)
              (listMax (sweepMagnitudes k R L C) 0 + tol)).getLastD 0) 0
           - (sweepFrequencies L C).getD
            ((crossingIndices (sweepMagnitudes k R L C)
              (listMax (sweepMagnitudes k R L C) 0 + tol)).headD 0) 0)
         else none)
    ∧ (find_bandwidth k R L C tol).q_factor_measured
      = (if 2 ≤ (crossingIndices (sweepMagnitudes k R L C)
            (listMax (sweepMagnitudes k R L C) 0 + tol)).length
         then some ((sweepFrequencies L C).getD (argmaxList (sweepMagnitudes k R L C)) 0 /
           ((sweepFrequencies L C).getD
            ((crossingIndices (sweepMagnitudes k R L C)
              (listMax (sweepMagnitudes k R L C) 0 + tol)).getLastD 0) 0
            - (sweepFrequencies L C).getD
            ((crossingIndices (sweepMagnitudes k R L C)
              (listMax (sweepMagnitudes k R L C) 0 + tol)).headD 0) 0))
         else none) := by
  unfold find_bandwidth bandwidthFromSweep
  split
  · rename_i h
    simp [h]
  · rename_i h
    simp [h]

lemma sqrtLC_pos {L C : ℝ} (hL : 0 < L) (hC : 0 < C) : 0 < Real.sqrt (L / C) :=
  Real.sqrt_pos.mpr (div_pos hL hC)

lemma dampingFactor_pos (k : CircuitKind) {R L C : ℝ}
    (hR : 0 < R) (hL : 0 < L) (hC : 0 < C) : 0 < dampingFactor k R L C := by
  cases k
  · rw [dampingFactor, seriesDampingFactor]
    have := sqrtLC_pos hL hC
    positivity
  · rw [dampingFactor, parallelDampingFactor]
    have := sqrtLC_pos hC hL
    positivity

lemma damping_type_trichotomy (w : ℝ) :
    (get_damping_type w = "Underdamped" ↔ w < 1)
    ∧ (get_damping_type w = "Critically Damped" ↔ w = 1)
    ∧ (get_damping_type w = "Overdamped" ↔ 1 < w) := by
  unfold get_damping_type
  rcases lt_trichotomy w 1 with h | h | h
  · rw [if_pos h]
    exact ⟨⟨fun _ => h, fun _ => rfl⟩,
      ⟨fun hs => absurd hs (by decide), fun he => absurd h (by simp [he])⟩,
      ⟨fun hs => absurd hs (by decide), fun hl => absurd (h.trans hl) (lt_irrefl w)⟩⟩
  · rw [if_neg (by simp [h]), if_pos h]
    exact ⟨⟨fun hs => absurd hs (by decide), fun hw => absurd hw (by simp [h])⟩,
      ⟨fun _ => h, fun _ => rfl⟩,
      ⟨fun hs => absurd hs (by decide), fun hl => absurd hl (by simp [h])⟩⟩
  · rw [if_neg (lt_asymm h), if_neg (ne_of_gt h)]
    exact ⟨⟨fun hs => absurd hs (by decide), fun hw => absurd hw (lt_asymm h)⟩,
      ⟨fun hs => absurd hs (by decide), fun he => absurd he (ne_of_gt h)⟩,
      ⟨fun _ => h, fun _ => rfl⟩⟩

/-- Claim C5: the damping classification is Underdamped iff zeta < 1,
Critically Damped iff zeta = 1 exactly, Overdamped iff zeta > 1; and a
series circuit built with `R = 2*sqrt(L/C)` has damping factor exactly 1 and
is classified Critically Damped. -/
theorem damping_classification (z R L C : ℝ) (hL : 0 < L) (hC : 0 < C) :
    (get_damping_type z = "Underdamped" ↔ z < 1)
    ∧ (get_damping_type z = "Critically Damped" ↔ z = 1)
    ∧ (get_damping_type z = "Overdamped" ↔ 1 < z)
    ∧ (R = 2 * Real.sqrt (L / C) →
      seriesDampingFactor R L C = 1
      ∧ get_damping_type (seriesDampingFactor R L C) = "Critically Damped") := by
  obtain ⟨h1, h2, h3⟩ := damping_type_trichotomy z
  refine ⟨h1, h2, h3, fun hR => ?_⟩
  have hs : (0 : ℝ) < Real.sqrt (L / C) := sqrtLC_pos hL hC
  have heq : seriesDampingFactor R L C = 1 := by
    rw [seriesDampingFactor, hR, div_self (by positivity)]
  exact ⟨heq, heq ▸ (damping_type_trichotomy 1).2.1.mpr rfl⟩

/-- Witness for C5: a concrete underdamped value, and the concrete series
circuit `R = 2, L = 1, C = 1` (so `R = 2*sqrt(L/C)`) classified Critically
Damped with damping factor exactly 1. -/
theorem damping_classification_witness :
    get_damping_type (1 / 2) = "Underdamped"
    ∧ seriesDampingFactor 2 1 1 = 1
    ∧ get_damping_type (seriesDampingFactor 2 1 1) = "Critically Damped" := by
  have h := damping_classification (1 / 2) 2 1 1 one_pos one_pos
  have hR : (2 : ℝ) = 2 * Real.sqrt (1 / 1) := by
    norm_num [Real.sqrt_one]
  exact ⟨h.1.mpr (by norm_num), (h.2.2.2 hR).1, (h.2.2.2 hR).2⟩

/-- Claim C9: for every circuit with positive R, L, C, of either variant, the
damping factor is strictly positive, so `q_factor = 1/(2*zeta)` never divides
by zero and is itself positive. -/
theorem damping_factor_positive (k : CircuitKind) (R L C : ℝ)
    (hR : 0 < R) (hL : 0 < L) (hC : 0 < C) :
    0 < dampingFactor k R L C
    ∧ 2 * dampingFactor k R L C ≠ 0
    ∧ 0 < q_factor k R L C := by
  have h := dampingFactor_pos k hR hL hC
  refine ⟨h, mul_ne_zero two_ne_zero (ne_of_gt h), ?_⟩
  rw [q_factor]
  exact one_div_pos.mpr (by linarith)

/-- Witness for C9 at the concrete series circuit `R = L = C = 1`. -/
theorem damping_factor_positive_witness :
    0 < dampingFactor .series 1 1 1
    ∧ 2 * dampingFactor .series 1 1 1 ≠ 0
    ∧ 0 < q_factor .series 1 1 1 :=
  damping_factor_positive .series 1 1 1 one_pos one_pos one_pos

lemma two_pi_f0 (L C : ℝ) : 2 * Real.pi * f_0 L C = omega_0 L C := by
  rw [f_0]
  field_simp

lemma omega0_pos {L C : ℝ} (hL : 0 < L) (hC : 0 < C) : 0 < omega_0 L C := by
  rw [omega_0]
  positivity

lemma omega0_sq {L C : ℝ} (hL : 0 < L) (hC : 0 < C) :
    L * C * omega_0 L C ^ 2 = 1 := by
  rw [omega_0, div_pow, one_pow, Real.sq_sqrt (by positivity)]
  field_simp

lemma series_den_at_res {R L C : ℝ} (hL : 0 < L) (hC : 0 < C) :
    polyvalC [L * C, R * C, 1] (Complex.I * (omega_0 L C : Complex))
      = ((R * C * omega_0 L C : ℝ) : Complex) * Complex.I := by
  have h := omega0_sq hL hC
  have hc : ((L * C * omega_0 L C ^ 2 : ℝ) : Complex) = 1 := by
    rw [h]; norm_num
  simp only [polyvalC, List.foldl, zero_mul, zero_add]
  push_cast at hc ⊢
  linear_combination (Complex.I ^ 2) * hc + Complex.I_sq

lemma series_H_at_res {R L C : ℝ} (hR : 0 < R) (hL : 0 < L) (hC : 0 < C) :
    freqrespH [1] [L * C, R * C, 1] (2 * Real.pi * f_0 L C)
      = (((R * C * omega_0 L C)⁻¹ : ℝ) : Complex) * (-Complex.I) := by
  have hw : 0 < omega_0 L C := omega0_pos hL hC
  rw [freqrespH, two_pi_f0, series_den_at_res hL hC]
  have hnum : polyvalC [1] (Complex.I * (omega_0 L C : Complex)) = 1 := by
    simp [polyvalC]
  rw [hnum, one_div, mul_inv, Complex.inv_I]
  push_cast
  ring

lemma series_res_magnitude {R L C : ℝ} (hR : 0 < R) (hL : 0 < L) (hC : 0 < C) :
    magnitude_linear [1] [L * C, R * C, 1] (f_0 L C) = (R * C * omega_0 L C)⁻¹ := by
  have hw : 0 < omega_0 L C := omega0_pos hL hC
  rw [magnitude_linear, series_H_at_res hR hL hC]
  rw [map_mul, Complex.abs_ofReal, map_neg_eq_map, Complex.abs_I]
  rw [abs_of_pos (by positivity)]
  ring

lemma series_res_phase {R L C : ℝ} (hR : 0 < R) (hL : 0 < L) (hC : 0 < C) :
    phase_deg [1] [L * C, R * C, 1] (f_0 L C) = -90 := by
  have hw : 0 < omega_0 L C := omega0_pos hL hC
  have hpos : (0 : ℝ) < (R * C * omega_0 L C)⁻¹ := by positivity
  rw [phase_deg, phase_rad, series_H_at_res hR hL hC]
  rw [Complex.arg_real_mul _ hpos, Complex.arg_neg_I]
  field_simp
  ring

lemma c_omega_sqrt {L C : ℝ} (hL : 0 < L) (hC : 0 < C) :
    C * omega_0 L C * Real.sqrt (L / C) = 1 := by
  have hsl : (0 : ℝ) < Real.sqrt L := Real.sqrt_pos.mpr hL
  have hsc : (0 : ℝ) < Real.sqrt C := Real.sqrt_pos.mpr hC
  rw [omega_0, Real.sqrt_mul hL.le, Real.sqrt_div hL.le]
  field_simp
  linear_combination (-(Real.sqrt L)) * Real.sq_sqrt hC.le

lemma series_q_eq {R L C : ℝ} (hR : 0 < R) (hL : 0 < L) (hC : 0 < C) :
    q_factor .series R L C = Real.sqrt (L / C) / R := by
  have hs : (0 : ℝ) < Real.sqrt (L / C) := sqrtLC_pos hL hC
  have hd : dampingFactor .series R L C = seriesDampingFactor R L C := rfl
  rw [q_factor, hd, seriesDampingFactor]
  field_simp
  ring

lemma inv_RCw_eq {R L C : ℝ} (hR : 0 < R) (hL : 0 < L) (hC : 0 < C) :
    (R * C * omega_0 L C)⁻¹ = Real.sqrt (L / C) / R := by
  have hw : 0 < omega_0 L C := omega0_pos hL hC
  have hs : (0 : ℝ) < Real.sqrt (L / C) := sqrtLC_pos hL hC
  have key := c_omega_sqrt hL hC
  rw [inv_eq_one_div, eq_div_iff hR.ne', div_mul_eq_mul_div,
    div_eq_iff (by positivity : (R * C * omega_0 L C : ℝ) ≠ 0)]
  linear_combination (-R) * key

/-- Claim C1 as amended: for every series circuit with R, L, C > 0 the
frequency response at `f = f_0` has linear magnitude equal to the quality
factor `Q = 1/(2*zeta)` (so 0 dB only when Q = 1) and phase exactly -90
degrees, because `H(j*omega_0) = 1/(j*R*C*omega_0)`, not 1. -/
theorem series_resonance_response (R L C : ℝ)
    (hR : 0 < R) (hL : 0 < L) (hC : 0 < C) :
    magnitude_linear (get_transfer_function .series R L C).1
      (get_transfer_function .series R L C).2 (f_0 L C) = q_factor .series R L C
    ∧ phase_deg (get_transfer_function .series R L C).1
      (get_transfer_function .series R L C).2 (f_0 L C) = -90 := by
  have h1 : (get_transfer_function .series R L C).1 = [1] := rfl
  have h2 : (get_transfer_function .series R L C).2 = [L * C, R * C, 1] := rfl
  rw [h1, h2]
  refine ⟨?_, series_res_phase hR hL hC⟩
  rw [series_res_magnitude hR hL hC, inv_RCw_eq hR hL hC, series_q_eq hR hL hC]

/-- Witness for the amended C1 at the concrete series circuit R = L = C = 1. -/
theorem series_resonance_response_witness :
    magnitude_linear (get_transfer_function .series 1 1 1).1
      (get_transfer_function .series 1 1 1).2 (f_0 1 1) = q_factor .series 1 1 1
    ∧ phase_deg (get_transfer_function .series 1 1 1).1
      (get_transfer_function .series 1 1 1).2 (f_0 1 1) = -90 :=
  series_resonance_response 1 1 1 one_pos one_pos one_pos

/-- Counterexample to claim C1 as stated: for the series circuit R = 2,
L = 1, C = 1 the response at `f = f_0` has linear magnitude exactly 1/2
(not approximately 1, missing even a 10 percent tolerance) and phase exactly
-90 degrees (not approximately 0, missing even a 10 degree tolerance). -/
theorem series_resonance_claim_false :
    magnitude_linear (get_transfer_function .series 2 1 1).1
      (get_transfer_function .series 2 1 1).2 (f_0 1 1) = 1 / 2
    ∧ ¬(|magnitude_linear (get_transfer_function .series 2 1 1).1
        (get_transfer_function .series 2 1 1).2 (f_0 1 1) - 1| ≤ 1 / 10)
    ∧ phase_deg (get_transfer_function .series 2 1 1).1
      (get_transfer_function .series 2 1 1).2 (f_0 1 1) = -90
    ∧ ¬(|phase_deg (get_transfer_function .series 2 1 1).1
        (get_transfer_function .series 2 1 1).2 (f_0 1 1)| ≤ 10) := by
  have h1 : (get_transfer_function .series 2 1 1).1 = [1] := rfl
  have h2 : (get_transfer_function .series 2 1 1).2 = [(1 : ℝ) * 1, 2 * 1, 1] := rfl
  have hw : omega_0 1 1 = 1 := by
    rw [omega_0]
    norm_num [Real.sqrt_one]
  have hm : magnitude_linear (get_transfer_function .series 2 1 1).1
      (get_transfer_function .series 2 1 1).2 (f_0 1 1) = 1 / 2 := by
    rw [h1, h2, series_res_magnitude (by norm_num) one_pos one_pos, hw]
    norm_num
  have hp : phase_deg (get_transfer_function .series 2 1 1).1
      (get_transfer_function .series 2 1 1).2 (f_0 1 1) = -90 := by
    rw [h1, h2]
    exact series_res_phase (by norm_num) one_pos one_pos
  refine ⟨hm, ?_, hp, ?_⟩
  · rw [hm]
    norm_num [abs_le]
  · rw [hp]
    norm_num [abs_le]

lemma sqrt10_gt : 3.16227 < Real.sqrt 10 :=
  (Real.lt_sqrt (by norm_num)).mpr (by norm_num)

lemma sqrt10_lt : Real.sqrt 10 < 3.16228 :=
  (Real.sqrt_lt' (by norm_num)).mpr (by norm_num)

lemma sqrt15_gt : 3.8729 < Real.sqrt 15 :=
  (Real.lt_sqrt (by norm_num)).mpr (by norm_num)

lemma sqrt15_lt : Real.sqrt 15 < 3.873 :=
  (Real.sqrt_lt' (by norm_num)).mpr (by norm_num)

lemma scenario_omega : omega_0 (1 / 1000) (1 / 10000) = 1000 * Real.sqrt 10 := by
  rw [omega_0, show (1 / 1000 : ℝ) * (1 / 10000) = ((1000 : ℝ) ^ 2 * 10)⁻¹ by norm_num,
    Real.sqrt_inv, one_div, inv_inv,
    Real.sqrt_mul (by norm_num : (0 : ℝ) ≤ 1000 ^ 2),
    Real.sqrt_sq (by norm_num : (0 : ℝ) ≤ 1000)]

lemma scenario_zeta :
    dampingFactor .series 10 (1 / 1000) (1 / 10000) = Real.sqrt 10 / 2 := by
  have hd : dampingFactor .series 10 (1 / 1000) (1 / 10000)
      = seriesDampingFactor 10 (1 / 1000) (1 / 10000) := rfl
  have h10 : Real.sqrt 10 * Real.sqrt 10 = 10 := Real.mul_self_sqrt (by norm_num)
  have hpos : (0 : ℝ) < Real.sqrt 10 := Real.sqrt_pos.mpr (by norm_num)
  rw [hd, seriesDampingFactor, show (1 / 1000 : ℝ) / (1 / 10000) = 10 by norm_num,
    div_eq_div_iff (by positivity) (by norm_num)]
  linear_combination (-2) * h10

lemma scenario_zeta_gt : 1 < Real.sqrt 10 / 2 := by
  nlinarith [sqrt10_gt]

lemma scenario_sqrt_term :
    Real.sqrt ((Real.sqrt 10 / 2) ^ 2 - 1) = Real.sqrt 6 / 2 := by
  have h : (Real.sqrt 10 / 2) ^ 2 - 1 = (1 / 2 : ℝ) ^ 2 * 6 := by
    rw [div_pow, Real.sq_sqrt (by norm_num : (0 : ℝ) ≤ 10)]
    norm_num
  rw [h, Real.sqrt_mul (by positivity), Real.sqrt_sq (by positivity)]
  ring

lemma sqrt10_mul_sqrt6 : Real.sqrt 10 * Real.sqrt 6 = 2 * Real.sqrt 15 := by
  rw [← Real.sqrt_mul (by norm_num : (0 : ℝ) ≤ 10) 6,
    show (10 : ℝ) * 6 = 2 ^ 2 * 15 by norm_num,
    Real.sqrt_mul (by norm_num : (0 : ℝ) ≤ (2 : ℝ) ^ 2),
    Real.sqrt_sq (by norm_num : (0 : ℝ) ≤ (2 : ℝ))]

lemma scenario_pole1_val :
    -(1000 * Real.sqrt 10) * (Real.sqrt 10 / 2 + Real.sqrt 6 / 2)
      = -5000 - 1000 * Real.sqrt 15 := by
  have h10 : Real.sqrt 10 * Real.sqrt 10 = 10 := Real.mul_self_sqrt (by norm_num)
  linear_combination (-500) * h10 + (-500) * sqrt10_mul_sqrt6

lemma scenario_pole2_val :
    -(1000 * Real.sqrt 10) * (Real.sqrt 10 / 2 - Real.sqrt 6 / 2)
      = 1000 * Real.sqrt 15 - 5000 := by
  have h10 : Real.sqrt 10 * Real.sqrt 10 = 10 := Real.mul_self_sqrt (by norm_num)
  linear_combination (-500) * h10 + 500 * sqrt10_mul_sqrt6

lemma ctc_nat_freq_rad (k : CircuitKind) (R L C : ℝ) :
    (calculate_time_constants k R L C).natural_frequency_rad = omega_0 L C := rfl

lemma ctc_nat_freq_hz (k : CircuitKind) (R L C : ℝ) :
    (calculate_time_constants k R L C).natural_frequency_hz = f_0 L C := rfl

lemma ctc_damping_factor (k : CircuitKind) (R L C : ℝ) :
    (calculate_time_constants k R L C).damping_factor = dampingFactor k R L C := rfl

lemma ctc_q_factor (k : CircuitKind) (R L C : ℝ) :
    (calculate_time_constants k R L C).q_factor = q_factor k R L C := rfl

lemma ctc_damping_type (k : CircuitKind) (R L C : ℝ) :
    (calculate_time_constants k R L C).damping_type
      = get_damping_type (dampingFactor k R L C) := rfl

lemma ctc_pole_1 (k : CircuitKind) (R L C : ℝ) :
    (calculate_time_constants k R L C).pole_1
      = if dampingFactor k R L C < 1 then none
        else if 1 < dampingFactor k R L C
          then some (-(omega_0 L C) *
            (dampingFactor k R L C + Real.sqrt (dampingFactor k R L C ^ 2 - 1)))
          else none := rfl

lemma ctc_pole_2 (k : CircuitKind) (R L C : ℝ) :
    (calculate_time_constants k R L C).pole_2
      = if dampingFactor k R L C < 1 then none
        else if 1 < dampingFactor k R L C
          then some (-(omega_0 L C) *
            (dampingFactor k R L C - Real.sqrt (dampingFactor k R L C ^ 2 - 1)))
          else none := rfl

lemma ctc_time_constant_1 (k : CircuitKind) (R L C : ℝ) :
    (calculate_time_constants k R L C).time_constant_1
      = if dampingFactor k R L C < 1 then none
        else if 1 < dampingFactor k R L C
          then some (-1 / (-(omega_0 L C) *
            (dampingFactor k R L C + Real.sqrt (dampingFactor k R L C ^ 2 - 1))))
          else none := rfl

lemma ctc_time_constant_2 (k : CircuitKind) (R L C : ℝ) :
    (calculate_time_constants k R L C).time_constant_2
      = if dampingFactor k R L C < 1 then none
        else if 1 < dampingFactor k R L C
          then some (-1 / (-(omega_0 L C) *
            (dampingFactor k R L C - Real.sqrt (dampingFactor k R L C ^ 2 - 1))))
          else none := rfl

lemma ctc_settling_2 (k : CircuitKind) (R L C : ℝ) :
    (calculate_time_constants k R L C).settling_time_2_percent
      = if 0 < dampingFactor k R L C
          then some (4 / (dampingFactor k R L C * omega_0 L C)) else none := rfl

lemma scenario_poles :
    (calculate_time_constants .series 10 (1 / 1000) (1 / 10000)).pole_1
      = some (-5000 - 1000 * Real.sqrt 15)
    ∧ (calculate_time_constants .series 10 (1 / 1000) (1 / 10000)).pole_2
      = some (1000 * Real.sqrt 15 - 5000) := by
  have hgt := scenario_zeta_gt
  constructor
  · rw [ctc_pole_1, scenario_zeta, scenario_omega, if_neg (lt_asymm hgt),
      if_pos hgt, scenario_sqrt_term, scenario_pole1_val]
  · rw [ctc_pole_2, scenario_zeta, scenario_omega, if_neg (lt_asymm hgt),
      if_pos hgt, scenario_sqrt_term, scenario_pole2_val]

lemma scenario_tcs :
    (calculate_time_constants .series 10 (1 / 1000) (1 / 10000)).time_constant_1
      = some (1 / (5000 + 1000 * Real.sqrt 15))
    ∧ (calculate_time_constants .series 10 (1 / 1000) (1 / 10000)).time_constant_2
      = some (1 / (5000 - 1000 * Real.sqrt 15)) := by
  have hgt := scenario_zeta_gt
  constructor
  · rw [ctc_time_constant_1, scenario_zeta, scenario_omega, if_neg (lt_asymm hgt),
      if_pos hgt, scenario_sqrt_term, scenario_pole1_val,
      show (-5000 - 1000 * Real.sqrt 15 : ℝ) = -(5000 + 1000 * Real.sqrt 15) by ring,
      neg_div_neg_eq]
  · rw [ctc_time_constant_2, scenario_zeta, scenario_omega, if_neg (lt_asymm hgt),
      if_pos hgt, scenario_sqrt_term, scenario_pole2_val,
      show (1000 * Real.sqrt 15 - 5000 : ℝ) = -(5000 - 1000 * Real.sqrt 15) by ring,
      show (-1 : ℝ) = -(1) by ring, neg_div_neg_eq]

/-- Claim C4 as amended: for the series circuit R = 10, L = 0.001, C = 0.0001
the summarizer reports `omega_0 = 1000*sqrt(10)` (between 3162.2 and 3162.3
rad/s), `f_0` between 503.2 and 503.4 Hz, `zeta = sqrt(10)/2` (between 1.581
and 1.582, Overdamped), two real poles `-5000 -+ 1000*sqrt(15)`, i.e.
approximately -8873.0 and -1127.0 rad/s (not -9378.9 and -1067.4), and time
constants approximately 0.0001127 s and 0.000887 s. -/
theorem series_scenario_summary :
    (calculate_time_constants .series 10 (1 / 1000) (1 / 10000)).natural_frequency_rad
      = 1000 * Real.sqrt 10
    ∧ 3162.2 < 1000 * Real.sqrt 10 ∧ 1000 * Real.sqrt 10 < 3162.3
    ∧ 503.2 < (calculate_time_constants .series 10 (1 / 1000) (1 / 10000)).natural_frequency_hz
    ∧ (calculate_time_constants .series 10 (1 / 1000) (1 / 10000)).natural_frequency_hz < 503.4
    ∧ (calculate_time_constants .series 10 (1 / 1000) (1 / 10000)).damping_factor
      = Real.sqrt 10 / 2
    ∧ 1.581 < Real.sqrt 10 / 2 ∧ Real.sqrt 10 / 2 < 1.582
    ∧ (calculate_time_constants .series 10 (1 / 1000) (1 / 10000)).damping_type
      = "Overdamped"
    ∧ (calculate_time_constants .series 10 (1 / 1000) (1 / 10000)).pole_1
      = some (-5000 - 1000 * Real.sqrt 15)
    ∧ -8873 < -5000 - 1000 * Real.sqrt 15 ∧ -5000 - 1000 * Real.sqrt 15 < -8872.9
    ∧ (calculate_time_constants .series 10 (1 / 1000) (1 / 10000)).pole_2
      = some (1000 * Real.sqrt 15 - 5000)
    ∧ -1127.1 < 1000 * Real.sqrt 15 - 5000 ∧ 1000 * Real.sqrt 15 - 5000 < -1127
    ∧ (calculate_time_constants .series 10 (1 / 1000) (1 / 10000)).time_constant_1
      = some (1 / (5000 + 1000 * Real.sqrt 15))
    ∧ 0.000112 < 1 / (5000 + 1000 * Real.sqrt 15)
    ∧ 1 / (5000 + 1000 * Real.sqrt 15) < 0.000113
    ∧ (calculate_time_constants .series 10 (1 / 1000) (1 / 10000)).time_constant_2
      = some (1 / (5000 - 1000 * Real.sqrt 15))
    ∧ 0.000887 < 1 / (5000 - 1000 * Real.sqrt 15)
    ∧ 1 / (5000 - 1000 * Real.sqrt 15) < 0.000888 := by
  have h10g := sqrt10_gt
  have h10l := sqrt10_lt
  have h15g := sqrt15_gt
  have h15l := sqrt15_lt
  have hgt := scenario_zeta_gt
  have hπ₁ := Real.pi_gt_3141592
  have hπ₂ := Real.pi_lt_3141593
  have hden1 : (0 : ℝ) < 5000 + 1000 * Real.sqrt 15 := by nlinarith
  have hden2 : (0 : ℝ) < 5000 - 1000 * Real.sqrt 15 := by nlinarith
  refine ⟨by rw [ctc_nat_freq_rad, scenario_omega], by nlinarith, by nlinarith,
    ?_, ?_,
    by rw [ctc_damping_factor, scenario_zeta], by nlinarith, by nlinarith,
    ?_,
    scenario_poles.1, by nlinarith, by nlinarith,
    scenario_poles.2, by nlinarith, by nlinarith,
    scenario_tcs.1, ?_, ?_,
    scenario_tcs.2, ?_, ?_⟩
  · rw [ctc_nat_freq_hz, f_0, scenario_omega, lt_div_iff (by positivity)]
    nlinarith
  · rw [ctc_nat_freq_hz, f_0, scenario_omega, div_lt_iff (by positivity)]
    nlinarith
  · rw [ctc_damping_type, scenario_zeta, get_damping_type,
      if_neg (lt_asymm hgt), if_neg (ne_of_gt hgt)]
  · rw [lt_div_iff hden1]
    nlinarith
  · rw [div_lt_iff hden1]
    nlinarith
  · rw [lt_div_iff hden2]
    nlinarith
  · rw [div_lt_iff hden2]
    nlinarith

/-- Counterexample to claim C4 as stated: for the series circuit R = 10,
L = 0.001, C = 0.0001 the two reported poles are `-5000 - 1000*sqrt(15)`
(about -8873.0) and `1000*sqrt(15) - 5000` (about -1127.0); each is more
than 50 rad/s away from the claimed -1067.4 and more than 500 rad/s away
from the claimed -9378.9, so the claimed pole locations are wrong. -/
theorem series_scenario_pole_claim_false :
    (calculate_time_constants .series 10 (1 / 1000) (1 / 10000)).pole_1
      = some (-5000 - 1000 * Real.sqrt 15)
    ∧ (calculate_time_constants .series 10 (1 / 1000) (1 / 10000)).pole_2
      = some (1000 * Real.sqrt 15 - 5000)
    ∧ 50 < |(-5000 - 1000 * Real.sqrt 15) - (-1067.4)|
    ∧ 50 < |(1000 * Real.sqrt 15 - 5000) - (-1067.4)|
    ∧ 500 < |(-5000 - 1000 * Real.sqrt 15) - (-9378.9)|
    ∧ 500 < |(1000 * Real.sqrt 15 - 5000) - (-9378.9)| := by
  have h15g := sqrt15_gt
  have h15l := sqrt15_lt
  refine ⟨scenario_poles.1, scenario_poles.2, ?_, ?_, ?_, ?_⟩
  · exact lt_abs.mpr (Or.inr (by nlinarith))
  · exact lt_abs.mpr (Or.inr (by nlinarith))
  · exact lt_abs.mpr (Or.inl (by nlinarith))
  · exact lt_abs.mpr (Or.inl (by nlinarith))

/-- Claim C8 as amended: for every circuit with positive parameters the
explanation includes the "sharp resonance, low loss" line whenever Q > 10
(such a circuit is necessarily underdamped, so the nested check is reached),
and it includes the topology-specific notes for the circuit's variant; but
the "broad resonance, high loss" line is dead code: it is gated behind
`zeta < 1` while `Q < 0.5` forces `zeta > 1`, so it is never emitted. -/
theorem insights_q_commentary (k : CircuitKind) (R L C : ℝ)
    (hR : 0 < R) (hL : 0 < L) (hC : 0 < C) :
    (10 < q_factor k R L C →
      Insight.highQSharpResonanceLowLoss ∈ get_educational_insights k R L C)
    ∧ Insight.lowQBroadResonanceHighLoss ∉ get_educational_insights k R L C
    ∧ Insight.seriesSameCurrent ∈ get_educational_insights .series R L C
    ∧ Insight.seriesMinImpedance ∈ get_educational_insights .series R L C
    ∧ Insight.parallelSameVoltage ∈ get_educational_insights .parallel R L C
    ∧ Insight.parallelMaxImpedance ∈ get_educational_insights .parallel R L C := by
  have hz := dampingFactor_pos k hR hL hC
  refine ⟨?_, ?_, ?_, ?_, ?_, ?_⟩
  · intro hq
    have hzlt : dampingFactor k R L C < 1 := by
      rw [q_factor, lt_div_iff₀ (by linarith)] at hq
      linarith
    simp only [get_educational_insights, ctc_damping_factor, ctc_q_factor,
      ctc_settling_2]
    simp [hzlt, hq]
  · by_cases h1 : dampingFactor k R L C < 1
    · have hq2 : ¬(q_factor k R L C < 0.5) := by
        rw [q_factor, not_lt, le_div_iff₀ (by linarith)]
        nlinarith
      by_cases h2 : 10 < q_factor k R L C
      · simp only [get_educational_insights, ctc_damping_factor, ctc_q_factor,
          ctc_settling_2]
        simp [h1, h2, hz]
        cases k <;> simp
      · simp only [get_educational_insights, ctc_damping_factor, ctc_q_factor,
          ctc_settling_2]
        simp [h1, h2, hq2, hz]
        cases k <;> simp
    · by_cases h2 : 1 < dampingFactor k R L C
      · simp only [get_educational_insights, ctc_damping_factor, ctc_q_factor,
          ctc_settling_2]
        simp [h1, h2, hz]
        cases k <;> simp
      · simp only [get_educational_insights, ctc_damping_factor, ctc_q_factor,
          ctc_settling_2]
        simp [h1, h2, hz]
        cases k <;> simp
  · apply List.mem_append_right
    simp
  · apply List.mem_append_right
    simp
  · apply List.mem_append_right
    simp
  · apply List.mem_append_right
    simp

/-- Witness for the amended C8 at the high-Q series circuit R = 0.01,
L = C = 1 (Q = 100) and its per-variant topology notes. -/
theorem insights_q_commentary_witness :
    Insight.highQSharpResonanceLowLoss ∈ get_educational_insights .series (1 / 100) 1 1
    ∧ Insight.lowQBroadResonanceHighLoss ∉ get_educational_insights .series (1 / 100) 1 1
    ∧ Insight.seriesSameCurrent ∈ get_educational_insights .series (1 / 100) 1 1
    ∧ Insight.seriesMinImpedance ∈ get_educational_insights .series (1 / 100) 1 1 := by
  have h := insights_q_commentary .series (1 / 100) 1 1 (by norm_num) one_pos one_pos
  have hd : dampingFactor .series (1 / 100) 1 1 = 1 / 200 := by
    have : dampingFactor .series (1 / 100) 1 1 = seriesDampingFactor (1 / 100) 1 1 := rfl
    rw [this, seriesDampingFactor]
    norm_num [Real.sqrt_one]
  have hq : 10 < q_factor .series (1 / 100) 1 1 := by
    rw [q_factor, hd]
    norm_num
  exact ⟨h.1 hq, h.2.1, h.2.2.1, h.2.2.2.1⟩

/-- Counterexample to claim C8 as stated: the series circuit R = 4, L = 1,
C = 1 has Q = 1/4 < 0.5, yet the "broad resonance, high loss" line is not in
its explanation (the circuit is overdamped, and that line is only reachable
in the underdamped branch). -/
theorem insights_low_q_claim_false :
    q_factor .series 4 1 1 < 0.5
    ∧ Insight.lowQBroadResonanceHighLoss ∉ get_educational_insights .series 4 1 1 := by
  have hd : dampingFactor .series 4 1 1 = 2 := by
    have : dampingFactor .series 4 1 1 = seriesDampingFactor 4 1 1 := rfl
    rw [this, seriesDampingFactor]
    norm_num [Real.sqrt_one]
  have hq : q_factor .series 4 1 1 = 1 / 4 := by
    rw [q_factor, hd]
    norm_num
  constructor
  · rw [hq]
    norm_num
  · simp only [get_educational_insights, ctc_damping_factor, ctc_q_factor,
      ctc_settling_2, hd]
    norm_num
    simp

/-- Witness for C2 as amended at a concrete run. -/
theorem simulate_no_boundary_validation_witness :
    simulate_step_response 5 1000 = .ok (linspace 0 5 1000)
    ∧ simulate_sinusoidal_response 1 1 5 1000 = .ok (linspace 0 5 1000) :=
  ⟨(simulate_no_boundary_validation 5 1000 1 1).1,
   (simulate_no_boundary_validation 5 1000 1 1).2.1⟩

/-- Witness for C6 at the concrete circuit R = 1, L = 2, C = 3. -/
theorem transfer_function_coefficients_witness :
    get_transfer_function .series 1 2 3 = ([1], [2 * 3, 1 * 3, 1])
    ∧ get_transfer_function .parallel 1 2 3 = ([1 * 3, 0], [2 * 3, 1 * 3, 1]) :=
  transfer_function_coefficients 1 2 3

/-- Witness for C7 at a concrete circuit and the default tolerance. -/
theorem find_bandwidth_structure_witness :
    (find_bandwidth .series 1 1 1 (-3)).target_magnitude_db
      = listMax (sweepMagnitudes .series 1 1 1) 0 + (-3) :=
  (find_bandwidth_structure .series 1 1 1 (-3)).2.1
